import Mathlib

/-
Shallow embedding of the UDP transport layer of wireguard-nt
(src/driver/socket.c) and proofs about it.

Modelling conventions:
 * Machine integers are Nat with explicit reductions mod 2^w where C
   arithmetic can wrap (ULONG is 32-bit on Windows; UINT32 likewise).
 * IPv4 addresses are modelled by their logical (big-endian) 32-bit value;
   the Htonl conversions in the source only change the in-memory byte
   order, and byte swapping is a bijection compatible with bytewise AND
   and XOR, so masks and comparisons are expressed directly on the
   logical values.
 * An IN6_ADDR is modelled as its four consecutive 32-bit words (the
   source accesses it as UINT32[4] and UINT64[2]).
 * The IN_PKTINFO/IN6_PKTINFO union inside ENDPOINT is modelled by its
   five 32-bit storage words S0..S4: Src4.ipi_addr = S0,
   Src4.ipi_ifindex = S1, Src6.ipi6_addr = (S0,S1,S2,S3),
   Src6.ipi6_ifindex = S4.  This captures that zeroing Src6 also zeroes
   Src4, as the source relies on.
 * The SOCKADDR_INET union is flattened into separate v4/v6 fields plus
   the shared si_family byte; no claim depends on its byte overlap.
 * Calls into the OS (forwarding table, interface queries, best route)
   are modelled by an environment record of functions; an Except.error s
   result models a call that returned the non-success status s.
 * Fallible OS statuses are an inductive NTSTATUS; ntSuccess models the
   NT_SUCCESS macro.
 * The functions here are sequential: the optimistic UpdateGeneration
   re-checks in the source cannot fail without a concurrent writer, so
   the retry loop is not taken and the straight-line path is modelled.
-/

/-- Claim support: AF_INET constant (Windows value 2). -/
def AF_INET : Nat := 2

/-- Claim support: AF_INET6 constant (Windows value 23). -/
def AF_INET6 : Nat := 23

/-- Claim support: IPPROTO_IP constant (0). -/
def IPPROTO_IP : Nat := 0

/-- Claim support: IPPROTO_IPV6 constant (41). -/
def IPPROTO_IPV6 : Nat := 41

/-- Claim support: IP_PKTINFO option value (19). -/
def IP_PKTINFO : Nat := 19

/-- Claim support: IPV6_PKTINFO option value (19). -/
def IPV6_PKTINFO : Nat := 19

/-- Claim support: WSA_CMSG_LEN on x64 (16-byte aligned WSACMSGHDR header plus payload). -/
def WSA_CMSG_LEN (n : Nat) : Nat := 16 + n

/-- OS status codes surfaced by this layer.  OtherFailure models any other
non-success NTSTATUS coming back from the OS. -/
inductive NTSTATUS where
  | Success
  | AlreadyComplete
  | InvalidParameter
  | BadNetworkPath
  | InsufficientResources
  | NetworkUnreachable
  | InvalidAddress
  | OtherFailure (code : Nat)
deriving DecidableEq, Repr

/-- Claim support: the NT_SUCCESS macro (severity bits of the status);
STATUS_SUCCESS and STATUS_ALREADY_COMPLETE are success-class. -/
def ntSuccess : NTSTATUS → Bool
  | .Success => true
  | .AlreadyComplete => true
  | _ => false

/-- An IN6_ADDR as its four consecutive 32-bit words. -/
structure IN6_ADDR where
  w0 : Nat
  w1 : Nat
  w2 : Nat
  w3 : Nat
deriving DecidableEq, Repr

/-- Claim support: word j of an IN6_ADDR, as the source's UINT32 indexing. -/
def v6Word (a : IN6_ADDR) : Nat → Nat
  | 0 => a.w0
  | 1 => a.w1
  | 2 => a.w2
  | _ => a.w3

/-- Claim support: the all-zero IN6_ADDR. -/
def zeroIN6 : IN6_ADDR := ⟨0, 0, 0, 0⟩

/-- An IP_ADDRESS_PREFIX: the SOCKADDR_INET union is flattened into the
two per-family views of the prefix address, plus the length. -/
structure IP_ADDRESS_PREFIX where
  Ipv4 : Nat
  Ipv6 : IN6_ADDR
  PrefixLength : Nat
deriving DecidableEq, Repr

/-- Claim support: the logical value of the C expression
Htonl(~0U lshift (32 - L)), i.e. the high-L-bits IPv4 netmask, computed
exactly as 32-bit C unsigned arithmetic computes it for 1 <= L <= 32. -/
def MASK32 (L : Nat) : Nat := (((2 ^ 32 - 1) <<< (32 - L))) % 2 ^ 32

/-- CidrMaskMatchV4 from src/driver/socket.c lines 199-204: a zero-length
match is accepted outright, otherwise the address ANDed with the
netmask is compared against the (unmasked) stored network value of the
prefix address. -/
def CidrMaskMatchV4 (Addr : Nat) (Pfx : IP_ADDRESS_PREFIX) : Bool :=
  Pfx.PrefixLength == 0 ||
    (Addr &&& MASK32 Pfx.PrefixLength) == Pfx.Ipv4

/-- Claim support: RtlEqualMemory over the first n 32-bit words of two
IN6_ADDRs (the source compares WholeParts * sizeof(UINT32) bytes). -/
def wordsEqUpTo (a b : IN6_ADDR) (n : Nat) : Bool :=
  (List.range n).all (fun j => v6Word a j == v6Word b j)

/-- CidrMaskMatchV6 from src/driver/socket.c lines 206-219: zero-length
always matches; otherwise the first PrefixLength/32 whole words are
compared and, unless the prefix is word-aligned or full-width, the next
word is compared under the leftover-bits mask.  As in V4, the prefix
word is compared unmasked. -/
def CidrMaskMatchV6 (Addr : IN6_ADDR) (Pfx : IP_ADDRESS_PREFIX) : Bool :=
  if Pfx.PrefixLength == 0 then
    true
  else
    let WholeParts := Pfx.PrefixLength / 32
    let LeftoverBits := Pfx.PrefixLength % 32
    if !(wordsEqUpTo Pfx.Ipv6 Addr WholeParts) then
      false
    else if WholeParts == 4 || LeftoverBits == 0 then
      true
    else
      (v6Word Addr WholeParts &&& MASK32 LeftoverBits) == v6Word Pfx.Ipv6 WholeParts

/-- Modelled from the spec: the mask of the reference CIDR definition,
mask(0) = 0 and mask(L > 0) the complement of ((1 lshift (W-L)) - 1)
within word width W. -/
def cidrMaskRef (W L : Nat) : Nat :=
  if L == 0 then 0 else (2 ^ W - 1) ^^^ ((1 <<< (W - L)) - 1)

/-- Modelled from the spec: the reference CIDR match over word width W,
comparing masked address against masked prefix address. -/
def cidrMatchRef (W A P L : Nat) : Bool :=
  (A &&& cidrMaskRef W L) == (P &&& cidrMaskRef W L)

/-- Claim support: an IN6_ADDR as the 128-bit number formed by its words
in order (big-endian word significance). -/
def v6ToNat (a : IN6_ADDR) : Nat :=
  a.w0 * 2 ^ 96 + a.w1 * 2 ^ 64 + a.w2 * 2 ^ 32 + a.w3

example : CidrMaskMatchV4 0 ⟨1, zeroIN6, 31⟩ = false := by decide
example : cidrMatchRef 32 0 1 31 = true := by decide
example : CidrMaskMatchV4 12345 ⟨0, zeroIN6, 0⟩ = true := by decide
example : MASK32 24 = 0xFFFFFF00 := by decide
example : cidrMaskRef 32 24 = 0xFFFFFF00 := by decide
example : cidrMaskRef 128 33 = (v6ToNat ⟨0xFFFFFFFF, 0x80000000, 0, 0⟩) := by decide
example : CidrMaskMatchV6 ⟨1, 2, 3, 4⟩ ⟨0, ⟨1, 2, 0, 0⟩, 64⟩ = true := by decide
example : CidrMaskMatchV6 ⟨1, 2, 3, 4⟩ ⟨0, ⟨1, 3, 0, 0⟩, 64⟩ = false := by decide
example : CidrMaskMatchV6 ⟨1, 0x80000000, 3, 4⟩ ⟨0, ⟨1, 0x80000000, 0, 0⟩, 33⟩ = true := by decide
example : CidrMaskMatchV6 ⟨1, 0x7FFFFFFF, 3, 4⟩ ⟨0, ⟨1, 0x80000000, 0, 0⟩, 33⟩ = false := by decide

/-- The IN_PKTINFO / IN6_PKTINFO union inside ENDPOINT, as its five
32-bit storage words. -/
structure SRC_PKTINFO where
  s0 : Nat
  s1 : Nat
  s2 : Nat
  s3 : Nat
  s4 : Nat
deriving DecidableEq, Repr

/-- Claim support: the Src4.ipi_addr view of the pkt-info union. -/
def SRC_PKTINFO.src4Addr (s : SRC_PKTINFO) : Nat := s.s0

/-- Claim support: the Src4.ipi_ifindex view of the pkt-info union. -/
def SRC_PKTINFO.src4Ifindex (s : SRC_PKTINFO) : Nat := s.s1

/-- Claim support: the Src6.ipi6_addr view of the pkt-info union. -/
def SRC_PKTINFO.src6Addr (s : SRC_PKTINFO) : IN6_ADDR := ⟨s.s0, s.s1, s.s2, s.s3⟩

/-- Claim support: the Src6.ipi6_ifindex view of the pkt-info union. -/
def SRC_PKTINFO.src6Ifindex (s : SRC_PKTINFO) : Nat := s.s4

/-- Claim support: the all-zero pkt-info union. -/
def zeroSrc : SRC_PKTINFO := ⟨0, 0, 0, 0, 0⟩

/-- A WSACMSGHDR as its three header fields. -/
structure CMSGHDR where
  cmsg_len : Nat
  cmsg_level : Nat
  cmsg_type : Nat
deriving DecidableEq, Repr

/-- Claim support: the all-zero WSACMSGHDR. -/
def zeroCmsghdr : CMSGHDR := ⟨0, 0, 0⟩

/-- A SOCKADDR_INET, flattened: si_family is the shared family byte, the
remaining fields are the SOCKADDR_IN respectively SOCKADDR_IN6 views.
The byte overlap of the two views is not modelled; no claim reads the
v6 view of bytes written through the v4 view or vice versa. -/
structure SOCKADDR_INET where
  si_family : Nat
  v4Addr : Nat
  v4Port : Nat
  v6Addr : IN6_ADDR
  v6Port : Nat
  v6FlowInfo : Nat
  v6ScopeId : Nat
deriving DecidableEq, Repr

/-- Claim support: the all-zero SOCKADDR_INET. -/
def zeroSockaddrInet : SOCKADDR_INET := ⟨0, 0, 0, zeroIN6, 0, 0, 0⟩

/-- The ENDPOINT structure of a peer. -/
structure ENDPOINT where
  Addr : SOCKADDR_INET
  SrcCmsghdr : CMSGHDR
  Src : SRC_PKTINFO
  RoutingGeneration : Nat
  UpdateGeneration : Nat
deriving DecidableEq, Repr

/-- Claim support: the all-zero ENDPOINT (RtlZeroMemory of the struct). -/
def zeroEndpoint : ENDPOINT := ⟨zeroSockaddrInet, zeroCmsghdr, zeroSrc, 0, 0⟩

/-- Ipv6AddrEq from src/driver/socket.c lines 507-512: equality of two
IN6_ADDRs tested by ORing the XORs of their two 64-bit halves. -/
def Ipv6AddrEq (a b : IN6_ADDR) : Bool :=
  (((a.w0 * 2 ^ 32 + a.w1) ^^^ (b.w0 * 2 ^ 32 + b.w1)) |||
   ((a.w2 * 2 ^ 32 + a.w3) ^^^ (b.w2 * 2 ^ 32 + b.w3))) == 0

/-- EndpointEq from src/driver/socket.c lines 514-527: family-appropriate
equality of two endpoints; two endpoints with unset (zero) families are
also equal. -/
def EndpointEq (A B : ENDPOINT) : Bool :=
  (A.Addr.si_family == AF_INET && B.Addr.si_family == AF_INET &&
   A.Addr.v4Port == B.Addr.v4Port &&
   A.Addr.v4Addr == B.Addr.v4Addr &&
   A.Src.src4Addr == B.Src.src4Addr && A.Src.src4Ifindex == B.Src.src4Ifindex) ||
  (A.Addr.si_family == AF_INET6 && B.Addr.si_family == AF_INET6 &&
   A.Addr.v6Port == B.Addr.v6Port &&
   Ipv6AddrEq A.Addr.v6Addr B.Addr.v6Addr &&
   A.Addr.v6ScopeId == B.Addr.v6ScopeId &&
   Ipv6AddrEq A.Src.src6Addr B.Src.src6Addr && A.Src.src6Ifindex == B.Src.src6Ifindex) ||
  (A.Addr.si_family == 0 && B.Addr.si_family == 0)

/-- SocketSetPeerEndpoint from src/driver/socket.c lines 529-567, acting
on the peer's current endpoint.  Returns the updated endpoint and
whether the exclusive endpoint lock was acquired.  The unlocked
optimistic fast-out returns without taking the lock; an endpoint whose
family is neither AF_INET nor AF_INET6 takes the lock but writes
nothing. -/
def SocketSetPeerEndpoint (cur new : ENDPOINT) : ENDPOINT × Bool :=
  if EndpointEq new cur then
    (cur, false)
  else if new.Addr.si_family == AF_INET then
    ({ cur with
       Addr := { cur.Addr with
                 si_family := new.Addr.si_family,
                 v4Addr := new.Addr.v4Addr,
                 v4Port := new.Addr.v4Port },
       Src := { cur.Src with s0 := new.Src.s0, s1 := new.Src.s1 },
       SrcCmsghdr := ⟨WSA_CMSG_LEN 8, IPPROTO_IP, IP_PKTINFO⟩,
       RoutingGeneration := new.RoutingGeneration,
       UpdateGeneration := (cur.UpdateGeneration + 1) % 2 ^ 32 }, true)
  else if new.Addr.si_family == AF_INET6 then
    ({ cur with
       Addr := { cur.Addr with
                 si_family := new.Addr.si_family,
                 v6Addr := new.Addr.v6Addr,
                 v6Port := new.Addr.v6Port,
                 v6FlowInfo := new.Addr.v6FlowInfo,
                 v6ScopeId := new.Addr.v6ScopeId },
       Src := { cur.Src with
                s0 := new.Src.s0, s1 := new.Src.s1,
                s2 := new.Src.s2, s3 := new.Src.s3, s4 := new.Src.s4 },
       SrcCmsghdr := ⟨WSA_CMSG_LEN 20, IPPROTO_IPV6, IPV6_PKTINFO⟩,
       RoutingGeneration := new.RoutingGeneration,
       UpdateGeneration := (cur.UpdateGeneration + 1) % 2 ^ 32 }, true)
  else
    (cur, true)

/-- SocketClearPeerEndpointSrc from src/driver/socket.c lines 579-590:
under the exclusive lock, zero the routing generation, bump the update
generation, and zero the pkt-info union through its larger IPv6 view
(which, by the union layout, also zeroes the IPv4 view). -/
def SocketClearPeerEndpointSrc (e : ENDPOINT) : ENDPOINT :=
  { e with
    RoutingGeneration := 0,
    UpdateGeneration := (e.UpdateGeneration + 1) % 2 ^ 32,
    Src := { e.Src with s0 := 0, s1 := 0, s2 := 0, s3 := 0, s4 := 0 } }

/-- RouteNotification from src/driver/socket.c lines 855-862: one routing
change notification adds 2 to the per-family generation counter, in
32-bit arithmetic. -/
def RouteNotification (gen : Nat) : Nat := (gen + 2) % 2 ^ 32

/-- Claim support: the reachable values of a per-family routing generation
counter: it starts at 1 (static initializer, line 31) and is only ever
changed by RouteNotification. -/
inductive ReachableGen : Nat → Prop where
  | init : ReachableGen 1
  | step : ∀ {g}, ReachableGen g → ReachableGen (RouteNotification g)

/-- Claim support: the fast-path condition of SocketResolvePeerEndpointSrc
(lines 239-244): the endpoint family is set, its cached routing
generation equals the current global counter of that family, and the
cached source interface index is non-zero. -/
def fastPathOk (gen4 gen6 : Nat) (e : ENDPOINT) : Bool :=
  (e.Addr.si_family == AF_INET && e.RoutingGeneration == gen4 &&
   e.Src.src4Ifindex != 0) ||
  (e.Addr.si_family == AF_INET6 && e.RoutingGeneration == gen6 &&
   e.Src.src6Ifindex != 0)

example : EndpointEq zeroEndpoint zeroEndpoint = true := by decide
example : Ipv6AddrEq ⟨1, 2, 3, 4⟩ ⟨1, 2, 3, 4⟩ = true := by decide
example : Ipv6AddrEq ⟨1, 2, 3, 4⟩ ⟨1, 2, 3, 5⟩ = false := by decide
example : fastPathOk 7 1 { zeroEndpoint with
  Addr := { zeroSockaddrInet with si_family := 2, v4Addr := 3221225994, v4Port := 51820 },
  Src := { zeroSrc with s0 := 167772165, s1 := 3 },
  RoutingGeneration := 7 } = true := by decide

/-- A MIB_IPFORWARD_ROW2, restricted to the fields the scan loop reads.
DestinationPrefix is flattened per family like IP_ADDRESS_PREFIX. -/
structure MIB_IPFORWARD_ROW2 where
  InterfaceLuid : Nat
  InterfaceIndex : Nat
  DestinationPrefix : IP_ADDRESS_PREFIX
  Metric : Nat
deriving DecidableEq, Repr

/-- The OS routing environment seen by one resolver call: the two global
generation counters, whether the scratch allocation succeeds, and the
outcomes of the four OS routing APIs.  An Except.error s models a call
that returned the non-success status s; ifQuery luid is the result of
GetIfEntry2 keyed by interface LUID (none on failure, otherwise whether
OperStatus is IfOperStatusUp); ipIfQuery fam luid is the result of
GetIpInterfaceEntry (none on failure, otherwise the interface metric). -/
structure RouteEnv where
  gen4 : Nat
  gen6 : Nat
  forwardTable : Nat → Except NTSTATUS (List MIB_IPFORWARD_ROW2)
  allocOk : Bool
  ifQuery : Nat → Option Bool
  ipIfQuery : Nat → Nat → Option Nat
  bestRoute : Nat → SOCKADDR_INET → Except NTSTATUS SOCKADDR_INET

/-- The running Best* variables of the scan loop in
SocketResolvePeerEndpointSrc (line 247-248). -/
structure BestState where
  BestIndex : Nat
  BestCidr : Nat
  BestMetric : Nat
  BestLuid : Nat
deriving DecidableEq, Repr

/-- Claim support: the initial Best* state: BestIndex = 0, BestCidr = 0,
BestMetric = ~0UL (ULONG is 32 bits on Windows), BestLuid = 0. -/
def initBest : BestState := ⟨0, 0, 2 ^ 32 - 1, 0⟩

/-- One iteration of the scan loop of SocketResolvePeerEndpointSrc
(lines 260-286), mirroring the source's cascade of continue conditions:
skip our own tunnel interface, skip strictly shorter prefixes, skip
CIDR mismatches of the endpoint's family, skip interfaces that fail
GetIfEntry2 or are not up, skip interfaces that fail
GetIpInterfaceEntry, skip equal-prefix entries with a strictly larger
total metric; otherwise record the entry. -/
def scanStep (env : RouteEnv) (ownLuid fam a4 : Nat) (a6 : IN6_ADDR)
    (s : BestState) (row : MIB_IPFORWARD_ROW2) : BestState :=
  if row.InterfaceLuid == ownLuid then s
  else if row.DestinationPrefix.PrefixLength < s.BestCidr then s
  else if fam == AF_INET && !CidrMaskMatchV4 a4 row.DestinationPrefix then s
  else if fam == AF_INET6 && !CidrMaskMatchV6 a6 row.DestinationPrefix then s
  else
    match env.ifQuery row.InterfaceLuid with
    | none => s
    | some isUp =>
      if !isUp then s
      else
        match env.ipIfQuery fam row.InterfaceLuid with
        | none => s
        | some ifMetric =>
          let Metric := (row.Metric + ifMetric) % 2 ^ 32
          if row.DestinationPrefix.PrefixLength == s.BestCidr && Metric > s.BestMetric then s
          else ⟨row.InterfaceIndex, row.DestinationPrefix.PrefixLength, Metric, row.InterfaceLuid⟩

/-- Claim support: the whole scan loop over the forwarding table. -/
def scanTable (env : RouteEnv) (ownLuid fam a4 : Nat) (a6 : IN6_ADDR)
    (rows : List MIB_IPFORWARD_ROW2) : BestState :=
  rows.foldl (scanStep env ownLuid fam a4 a6) initBest

/-- Modelled from the spec: a forwarding-table entry is eligible when it
is not the device's own tunnel interface, its destination prefix
CIDR-matches the remote address of the endpoint's family, and its
interface is up (GetIfEntry2 succeeds with OperStatus up) and queryable
(GetIpInterfaceEntry succeeds). -/
def eligibleRow (env : RouteEnv) (ownLuid fam a4 : Nat) (a6 : IN6_ADDR)
    (row : MIB_IPFORWARD_ROW2) : Bool :=
  row.InterfaceLuid != ownLuid &&
  !(fam == AF_INET && !CidrMaskMatchV4 a4 row.DestinationPrefix) &&
  !(fam == AF_INET6 && !CidrMaskMatchV6 a6 row.DestinationPrefix) &&
  env.ifQuery row.InterfaceLuid == some true &&
  (env.ipIfQuery fam row.InterfaceLuid).isSome

/-- Modelled from the spec: the total metric of an entry, route metric
plus interface metric, in 32-bit arithmetic (meaningful for eligible
entries, whose interface metric query succeeds). -/
def rowTotalMetric (env : RouteEnv) (fam : Nat) (row : MIB_IPFORWARD_ROW2) : Nat :=
  (row.Metric + (env.ipIfQuery fam row.InterfaceLuid).getD 0) % 2 ^ 32

/-- Claim support: the destination prefix length of an entry. -/
def lenOf (r : MIB_IPFORWARD_ROW2) : Nat := r.DestinationPrefix.PrefixLength

/-- Modelled from the spec: the longest prefix length among a list of
eligible entries. -/
def maxCidrL (el : List MIB_IPFORWARD_ROW2) : Nat := (el.map lenOf).foldr max 0

/-- Modelled from the spec: the eligible entries of longest prefix. -/
def cands1 (el : List MIB_IPFORWARD_ROW2) : List MIB_IPFORWARD_ROW2 :=
  el.filter (fun r => lenOf r == maxCidrL el)

/-- Modelled from the spec: the lowest total metric among the entries of
longest prefix (the fold starts at ~0UL, the largest 32-bit metric). -/
def minMetricL (f : MIB_IPFORWARD_ROW2 → Nat) (el : List MIB_IPFORWARD_ROW2) : Nat :=
  ((cands1 el).map f).foldr min (2 ^ 32 - 1)

/-- Modelled from the spec: the longest-prefix entries of lowest total
metric. -/
def cands2 (f : MIB_IPFORWARD_ROW2 → Nat)
    (el : List MIB_IPFORWARD_ROW2) : List MIB_IPFORWARD_ROW2 :=
  (cands1 el).filter (fun r => f r == minMetricL f el)

/-- Modelled from the spec: the winning entry among a list of eligible
entries, given their total-metric function: the entries of the longest
prefix; among those, the ones of lowest total metric; remaining ties
are resolved by the entries' order in the table (the later entry
wins). -/
def pickWinner (f : MIB_IPFORWARD_ROW2 → Nat)
    (el : List MIB_IPFORWARD_ROW2) : Option MIB_IPFORWARD_ROW2 :=
  (cands2 f el).getLast?

/-- Modelled from the spec: the winning entry of a forwarding table:
among eligible entries, the longest-matching-prefix, lowest-total-metric,
latest entry. -/
def specWinner (env : RouteEnv) (ownLuid fam a4 : Nat) (a6 : IN6_ADDR)
    (rows : List MIB_IPFORWARD_ROW2) : Option MIB_IPFORWARD_ROW2 :=
  pickWinner (rowTotalMetric env fam) (rows.filter (eligibleRow env ownLuid fam a4 a6))

/-- Claim support: the scan loop's body once an entry is known eligible:
skip strictly shorter prefixes and equal-prefix entries with strictly
larger total metric, otherwise record the entry. -/
def greedyStep (f : MIB_IPFORWARD_ROW2 → Nat) (s : BestState)
    (r : MIB_IPFORWARD_ROW2) : BestState :=
  if lenOf r < s.BestCidr then s
  else if lenOf r == s.BestCidr && f r > s.BestMetric then s
  else ⟨r.InterfaceIndex, lenOf r, f r, r.InterfaceLuid⟩

/-- The outcome of one SocketResolvePeerEndpointSrc call: the returned
status, the peer endpoint after the call, whether the endpoint lock is
held (in read mode) at return, whether GetIpForwardTable2 was called,
and the interface index passed to GetBestRoute2 (none when
GetBestRoute2 was not called). -/
structure ResolveResult where
  status : NTSTATUS
  endpoint : ENDPOINT
  readLockHeld : Bool
  queriedTable : Bool
  bestRouteArg : Option Nat
deriving DecidableEq, Repr

/-- The slow path of SocketResolvePeerEndpointSrc (lines 245-329): query
the forwarding table (surfacing a failed query's status), allocate the
interface-row scratch buffer, scan the table, call GetBestRoute2 with
the winning interface index when the table is non-empty and the index
is non-zero, then write the resolved source fields of the endpoint's
family (an endpoint of any other family zeroes BestIndex instead) and
bump UpdateGeneration; a zero BestIndex yields
STATUS_BAD_NETWORK_PATH. -/
def resolveSlow (env : RouteEnv) (ownLuid : Nat) (e : ENDPOINT) : ResolveResult :=
  let fam := e.Addr.si_family
  match env.forwardTable fam with
  | .error s => ⟨s, e, false, true, none⟩
  | .ok rows =>
    if !env.allocOk then ⟨.InsufficientResources, e, false, true, none⟩
    else
      let best := scanTable env ownLuid fam e.Addr.v4Addr e.Addr.v6Addr rows
      let brCalled := !rows.isEmpty && best.BestIndex != 0
      let brArg : Option Nat := if brCalled then some best.BestIndex else none
      let brOutcome := if brCalled then env.bestRoute best.BestIndex e.Addr
                       else .ok zeroSockaddrInet
      match brOutcome with
      | .error s => ⟨s, e, false, true, brArg⟩
      | .ok srcAddr =>
        if fam == AF_INET then
          let e' := { e with
                      RoutingGeneration := env.gen4,
                      Src := { e.Src with s0 := srcAddr.v4Addr, s1 := best.BestIndex },
                      SrcCmsghdr := ⟨WSA_CMSG_LEN 8, IPPROTO_IP, IP_PKTINFO⟩,
                      UpdateGeneration := (e.UpdateGeneration + 1) % 2 ^ 32 }
          if best.BestIndex == 0 then ⟨.BadNetworkPath, e', false, true, brArg⟩
          else ⟨.Success, e', true, true, brArg⟩
        else if fam == AF_INET6 then
          let e' := { e with
                      RoutingGeneration := env.gen6,
                      Src := ⟨srcAddr.v6Addr.w0, srcAddr.v6Addr.w1,
                              srcAddr.v6Addr.w2, srcAddr.v6Addr.w3, best.BestIndex⟩,
                      SrcCmsghdr := ⟨WSA_CMSG_LEN 20, IPPROTO_IPV6, IPV6_PKTINFO⟩,
                      UpdateGeneration := (e.UpdateGeneration + 1) % 2 ^ 32 }
          if best.BestIndex == 0 then ⟨.BadNetworkPath, e', false, true, brArg⟩
          else ⟨.Success, e', true, true, brArg⟩
        else
          let e' := { e with UpdateGeneration := (e.UpdateGeneration + 1) % 2 ^ 32 }
          ⟨.BadNetworkPath, e', false, true, brArg⟩

/-- SocketResolvePeerEndpointSrc from src/driver/socket.c lines 221-330:
the fast path returns success with the endpoint untouched, the read
lock held and no OS calls made; otherwise the slow path runs. -/
def SocketResolvePeerEndpointSrc (env : RouteEnv) (ownLuid : Nat)
    (e : ENDPOINT) : ResolveResult :=
  if fastPathOk env.gen4 env.gen6 e then ⟨.Success, e, true, false, none⟩
  else resolveSlow env ownLuid e

/-- A WSACMSGHDR entry of a datagram's ancillary-data buffer.  Since the
source reinterprets the payload bytes by the level/type it searched
for, the model carries both typed views of the payload: pkt4 is the
IN_PKTINFO view (address, interface index) and pkt6 the IN6_PKTINFO
view. -/
structure CMSG_ENTRY where
  cmsg_level : Nat
  cmsg_type : Nat
  pkt4Addr : Nat
  pkt4Ifindex : Nat
  pkt6Addr : IN6_ADDR
  pkt6Ifindex : Nat
deriving DecidableEq, Repr

/-- A WSK_DATAGRAM_INDICATION, restricted to what SocketEndpointFromNbl
reads: the remote SOCKADDR (flattened per family) and the ancillary
control-data entries in buffer order. -/
structure WSK_DATAGRAM_INDICATION where
  remoteFamily : Nat
  remoteV4Addr : Nat
  remoteV4Port : Nat
  remoteV6Addr : IN6_ADDR
  remoteV6Port : Nat
  remoteV6FlowInfo : Nat
  remoteV6ScopeId : Nat
  control : List CMSG_ENTRY
deriving DecidableEq, Repr

/-- FindInCmsgHdr from src/driver/socket.c lines 459-474: the first
ancillary-data header whose level and type match. -/
def FindInCmsgHdr (d : WSK_DATAGRAM_INDICATION) (lvl ty : Nat) : Option CMSG_ENTRY :=
  d.control.find? (fun h => h.cmsg_level == lvl && h.cmsg_type == ty)

/-- SocketEndpointFromNbl from src/driver/socket.c lines 476-505: zero the
output endpoint, then fill it from the remote address and the matching
pkt-info ancillary header of the datagram's family, recording the
current routing generation of that family; any other case is
STATUS_INVALID_ADDRESS.  eInit is the caller's output buffer before the
call (always fully overwritten by the initial RtlZeroMemory). -/
def SocketEndpointFromNbl (gen4 gen6 : Nat) (d : WSK_DATAGRAM_INDICATION)
    (eInit : ENDPOINT) : NTSTATUS × ENDPOINT :=
  let _ := eInit
  if d.remoteFamily == AF_INET then
    match FindInCmsgHdr d IPPROTO_IP IP_PKTINFO with
    | some h =>
      (.Success,
       { zeroEndpoint with
         Addr := { zeroSockaddrInet with
                   si_family := d.remoteFamily,
                   v4Addr := d.remoteV4Addr,
                   v4Port := d.remoteV4Port },
         Src := { zeroSrc with s0 := h.pkt4Addr, s1 := h.pkt4Ifindex },
         RoutingGeneration := gen4,
         SrcCmsghdr := ⟨WSA_CMSG_LEN 8, IPPROTO_IP, IP_PKTINFO⟩ })
    | none => (.InvalidAddress, zeroEndpoint)
  else if d.remoteFamily == AF_INET6 then
    match FindInCmsgHdr d IPPROTO_IPV6 IPV6_PKTINFO with
    | some h =>
      (.Success,
       { zeroEndpoint with
         Addr := { zeroSockaddrInet with
                   si_family := d.remoteFamily,
                   v6Addr := d.remoteV6Addr,
                   v6Port := d.remoteV6Port,
                   v6FlowInfo := d.remoteV6FlowInfo,
                   v6ScopeId := d.remoteV6ScopeId },
         Src := ⟨h.pkt6Addr.w0, h.pkt6Addr.w1, h.pkt6Addr.w2, h.pkt6Addr.w3,
                 h.pkt6Ifindex⟩,
         RoutingGeneration := gen6,
         SrcCmsghdr := ⟨WSA_CMSG_LEN 20, IPPROTO_IPV6, IPV6_PKTINFO⟩ })
    | none => (.InvalidAddress, zeroEndpoint)
  else
    (.InvalidAddress, zeroEndpoint)

/-- Claim support: the keepalive datagram length MessageDataLen(0).
Modelled from the spec (messages.h is not under src/): the exact byte
length of a keepalive packet; its concrete value is irrelevant to the
theorems. -/
def keepaliveLen : Nat := 32

/-- A NET_BUFFER, restricted to the only field the send path's claims
depend on: its data length. -/
structure NET_BUFFER where
  DataLength : Nat
deriving DecidableEq, Repr

/-- A NET_BUFFER_LIST chain is a list of NET_BUFFER_LISTs, each holding
its NET_BUFFERs in chain order. -/
abbrev NBL_CHAIN := List (List NET_BUFFER)

/-- The environment of one send call: the routing environment, whether
the send-context lookaside allocation succeeds, and which per-family
sockets the device currently has (SendAsync fails with
STATUS_NETWORK_UNREACHABLE when the needed one is absent, and otherwise
dispatches asynchronously and reports success). -/
structure SendEnv where
  routeEnv : RouteEnv
  ctxAllocOk : Bool
  sock4 : Bool
  sock6 : Bool

/-- The observable outcome of one SocketSendNblsToPeer call: the returned
status; the value written through the AllKeepalive out-parameter (none
when the source never writes it); how many times the chain was handed
to FreeSendNetBufferList; whether a send context was requested from the
lookaside list; whether the endpoint resolver was invoked; and the
amounts added to Peer->TxBytes, to the device's output octet counters
and to its unicast packet counter. -/
structure SendResult where
  status : NTSTATUS
  allKeepalive : Option Bool
  freeSendCount : Nat
  ctxAllocTried : Bool
  resolveTried : Bool
  txBytesDelta : Nat
  outOctetsDelta : Nat
  outUcastPktsDelta : Nat
deriving DecidableEq, Repr

/-- SocketSendNblsToPeer from src/driver/socket.c lines 332-387: an empty
chain returns STATUS_ALREADY_COMPLETE before doing anything; context
allocation failure and resolver failure free the chain once; the walk
over the chain sums lengths, counts packets and computes AllKeepalive;
SendAsync failure (no socket of the endpoint's family) frees the chain
once; on success the peer and device statistics are updated. -/
def SocketSendNblsToPeer (env : SendEnv) (ownLuid : Nat) (peerEndpoint : ENDPOINT)
    (First : NBL_CHAIN) : SendResult :=
  if First.isEmpty then
    ⟨.AlreadyComplete, none, 0, false, false, 0, 0, 0⟩
  else if !env.ctxAllocOk then
    ⟨.InsufficientResources, none, 1, true, false, 0, 0, 0⟩
  else
    let r := SocketResolvePeerEndpointSrc env.routeEnv ownLuid peerEndpoint
    if !ntSuccess r.status then
      ⟨r.status, none, 1, true, true, 0, 0, 0⟩
    else
      let nbs := First.flatMap id
      let allK := nbs.all (fun nb => nb.DataLength == keepaliveLen)
      let dataLength := (nbs.map (fun nb => nb.DataLength)).sum
      let packets := nbs.length
      let fam := r.endpoint.Addr.si_family
      let sendOk := (fam == AF_INET && env.sock4) || (fam == AF_INET6 && env.sock6)
      if !sendOk then
        ⟨.NetworkUnreachable, some allK, 1, true, true, 0, 0, 0⟩
      else
        ⟨.Success, some allK, 0, true, true, dataLength, dataLength, packets⟩

/-- Claim support: a benign concrete routing environment used by witness
theorems (empty forwarding table, all interfaces up and queryable). -/
def witEnv : RouteEnv where
  gen4 := 7
  gen6 := 9
  forwardTable := fun _ => .ok []
  allocOk := true
  ifQuery := fun _ => some true
  ipIfQuery := fun _ _ => some 0
  bestRoute := fun _ a => .ok a

/-- Claim support: the peer endpoint of the spec's fast-path scenario:
remote 192.0.2.10:51820, source 10.0.0.5 on interface 3, cached routing
generation 7. -/
def witEp3 : ENDPOINT :=
  { zeroEndpoint with
    Addr := { zeroSockaddrInet with
              si_family := 2, v4Addr := 3221225994, v4Port := 51820 },
    Src := { zeroSrc with s0 := 167772165, s1 := 3 },
    RoutingGeneration := 7 }

/-- Claim C3: with a set address family, a cached RoutingGeneration equal
to the current global counter of that family and a non-zero source
interface index, SocketResolvePeerEndpointSrc succeeds on the fast
path: no OS routing-table or best-route call is made, no endpoint field
is modified, and it returns still holding the endpoint lock in read
mode. -/
theorem resolver_fast_path (env : RouteEnv) (ownLuid : Nat) (e : ENDPOINT)
    (h : (e.Addr.si_family = AF_INET ∧ e.RoutingGeneration = env.gen4 ∧
          e.Src.src4Ifindex ≠ 0) ∨
         (e.Addr.si_family = AF_INET6 ∧ e.RoutingGeneration = env.gen6 ∧
          e.Src.src6Ifindex ≠ 0)) :
    SocketResolvePeerEndpointSrc env ownLuid e =
      ⟨.Success, e, true, false, none⟩ := by
  have hfp : fastPathOk env.gen4 env.gen6 e = true := by
    unfold fastPathOk
    rcases h with ⟨h1, h2, h3⟩ | ⟨h1, h2, h3⟩ <;> simp [h1, h2, h3]
  unfold SocketResolvePeerEndpointSrc
  simp [hfp]

/-- Claim C3 witness: the spec's fast-path scenario evaluated concretely. -/
theorem resolver_fast_path_witness :
    SocketResolvePeerEndpointSrc witEnv 0 witEp3 =
      ⟨.Success, witEp3, true, false, none⟩ :=
  resolver_fast_path witEnv 0 witEp3 (Or.inl ⟨rfl, rfl, by decide⟩)

/-- Claim C6: an empty chain makes SocketSendNblsToPeer return
STATUS_ALREADY_COMPLETE without allocating a send context, without
resolving the endpoint, without freeing anything and without touching
peer or device statistics. -/
theorem send_nbls_empty_chain (env : SendEnv) (ownLuid : Nat) (e : ENDPOINT) :
    SocketSendNblsToPeer env ownLuid e [] =
      ⟨.AlreadyComplete, none, 0, false, false, 0, 0, 0⟩ := rfl

/-- Claim C7: when the new endpoint equals the peer's current endpoint
under the family-appropriate equality EndpointEq, SocketSetPeerEndpoint
returns without acquiring the write lock and leaves every field of the
endpoint, including UpdateGeneration, unchanged. -/
theorem set_peer_endpoint_noop (cur e : ENDPOINT)
    (h : EndpointEq e cur = true) :
    SocketSetPeerEndpoint cur e = (cur, false) := by
  unfold SocketSetPeerEndpoint
  simp [h]

/-- Claim C7 witness: a concrete equal v4 endpoint pair. -/
theorem set_peer_endpoint_noop_witness :
    SocketSetPeerEndpoint witEp3 witEp3 = (witEp3, false) :=
  set_peer_endpoint_noop witEp3 witEp3 (by decide)

/-- Claim C10: a new endpoint that is unequal to the current one under
the fast-out equality and whose family is neither AF_INET nor AF_INET6
makes SocketSetPeerEndpoint acquire (and release) the exclusive lock
but write nothing: every endpoint field, including RoutingGeneration
and UpdateGeneration, is unchanged. -/
theorem set_peer_endpoint_bad_family (cur e : ENDPOINT)
    (h1 : EndpointEq e cur = false)
    (h2 : e.Addr.si_family ≠ AF_INET)
    (h3 : e.Addr.si_family ≠ AF_INET6) :
    SocketSetPeerEndpoint cur e = (cur, true) := by
  unfold SocketSetPeerEndpoint
  simp [h1, h2, h3]

/-- Claim C10 witness: a family-5 endpoint against a v4 endpoint. -/
theorem set_peer_endpoint_bad_family_witness :
    SocketSetPeerEndpoint witEp3
      { zeroEndpoint with
        Addr := { zeroSockaddrInet with si_family := 5 } } =
      (witEp3, true) :=
  set_peer_endpoint_bad_family witEp3
    { zeroEndpoint with Addr := { zeroSockaddrInet with si_family := 5 } }
    (by decide) (by decide) (by decide)

/-- Claim C9: every reachable value of a per-family routing generation
counter is odd (it starts at 1 and only the notifier's plus-2 step
changes it), hence never 0; consequently, after
SocketClearPeerEndpointSrc zeroes the cached RoutingGeneration, the
resolver's fast-path condition cannot hold until a new resolution
writes a fresh generation. -/
theorem routing_generation_odd_and_clear_kills_fast_path :
    (∀ g, ReachableGen g → g % 2 = 1) ∧
    (∀ (e : ENDPOINT) (g4 g6 : Nat), ReachableGen g4 → ReachableGen g6 →
      fastPathOk g4 g6 (SocketClearPeerEndpointSrc e) = false) := by
  have hodd : ∀ g, ReachableGen g → g % 2 = 1 := by
    intro g h
    induction h with
    | init => rfl
    | step _ ih =>
      unfold RouteNotification
      rw [Nat.mod_mod_of_dvd _ (by norm_num), Nat.add_mod_right]
      exact ih
  refine ⟨hodd, ?_⟩
  intro e g4 g6 h4 h6
  have hg4 : g4 ≠ 0 := by
    intro h; have := hodd g4 h4; omega
  have hg6 : g6 ≠ 0 := by
    intro h; have := hodd g6 h6; omega
  unfold fastPathOk SocketClearPeerEndpointSrc
  simp [Ne.symm hg4, Ne.symm hg6]

/-- Claim C9 witness: the initial generation value 1 and a concrete
cleared endpoint. -/
theorem routing_generation_odd_witness :
    1 % 2 = 1 ∧
    fastPathOk 1 1 (SocketClearPeerEndpointSrc witEp3) = false :=
  ⟨routing_generation_odd_and_clear_kills_fast_path.1 1 ReachableGen.init,
   routing_generation_odd_and_clear_kills_fast_path.2 witEp3 1 1
     ReachableGen.init ReachableGen.init⟩

/-- Claim C8: SocketEndpointFromNbl is idempotent for a fixed datagram and
fixed routing generations (the initial RtlZeroMemory makes the output
independent of the output buffer's prior contents, so re-running it on
its own output reproduces the same status and byte-identical endpoint),
and it returns STATUS_INVALID_ADDRESS exactly when the datagram's
address family is neither AF_INET nor AF_INET6 or the matching pkt-info
ancillary-data header is absent. -/
theorem endpoint_from_nbl_idempotent_and_error (gen4 gen6 : Nat)
    (d : WSK_DATAGRAM_INDICATION) (e : ENDPOINT) :
    SocketEndpointFromNbl gen4 gen6 d (SocketEndpointFromNbl gen4 gen6 d e).2 =
      SocketEndpointFromNbl gen4 gen6 d e ∧
    ((SocketEndpointFromNbl gen4 gen6 d e).1 = .InvalidAddress ↔
      ((d.remoteFamily ≠ AF_INET ∧ d.remoteFamily ≠ AF_INET6) ∨
       (d.remoteFamily = AF_INET ∧ FindInCmsgHdr d IPPROTO_IP IP_PKTINFO = none) ∨
       (d.remoteFamily = AF_INET6 ∧ FindInCmsgHdr d IPPROTO_IPV6 IPV6_PKTINFO = none))) := by
  constructor
  · rfl
  · unfold SocketEndpointFromNbl
    by_cases h4 : d.remoteFamily = AF_INET
    · cases hf : FindInCmsgHdr d IPPROTO_IP IP_PKTINFO with
      | some h => simp [h4, hf, AF_INET, AF_INET6]
      | none => simp [h4, hf, AF_INET, AF_INET6]
    · by_cases h6 : d.remoteFamily = AF_INET6
      · cases hf : FindInCmsgHdr d IPPROTO_IPV6 IPV6_PKTINFO with
        | some h => simp [h4, h6, hf, AF_INET, AF_INET6]
        | none => simp [h4, h6, hf, AF_INET, AF_INET6]
      · simp [h4, h6]

/-- Claim support: a benign concrete send environment for witnesses. -/
def witSendEnv : SendEnv := ⟨witEnv, true, true, true⟩

/-- Claim C5 counterexample: at the concrete input of an empty chain the
claim's dichotomy fails: SocketSendNblsToPeer returns the success-class
status STATUS_ALREADY_COMPLETE, yet the AllKeepalive out-parameter is
never written (although every packet of the empty chain vacuously has
the keepalive length), and the chain is not handed to the free path
either. -/
theorem send_nbls_empty_neither_branch :
    ntSuccess (SocketSendNblsToPeer witSendEnv 0 witEp3 []).status = true ∧
    (SocketSendNblsToPeer witSendEnv 0 witEp3 []).allKeepalive = none ∧
    (([] : NBL_CHAIN).flatMap id).all (fun nb => nb.DataLength == keepaliveLen) = true ∧
    (SocketSendNblsToPeer witSendEnv 0 witEp3 []).freeSendCount = 0 := by
  decide

/-- Claim C5 as amended: for any non-empty chain, SocketSendNblsToPeer
either succeeds, in which case the written AllKeepalive flag is true
iff every packet of the chain has exactly the keepalive byte length, or
fails, in which case the chain has been passed to FreeSendNetBufferList
exactly once. -/
theorem send_nbls_success_or_free (env : SendEnv) (ownLuid : Nat) (e : ENDPOINT)
    (First : NBL_CHAIN) (h : First ≠ []) :
    (ntSuccess (SocketSendNblsToPeer env ownLuid e First).status = true ∧
     (SocketSendNblsToPeer env ownLuid e First).allKeepalive =
       some ((First.flatMap id).all (fun nb => nb.DataLength == keepaliveLen))) ∨
    (ntSuccess (SocketSendNblsToPeer env ownLuid e First).status = false ∧
     (SocketSendNblsToPeer env ownLuid e First).freeSendCount = 1) := by
  cases First with
  | nil => exact absurd rfl h
  | cons f rest =>
    by_cases hac : env.ctxAllocOk
    · by_cases hr : ntSuccess (SocketResolvePeerEndpointSrc env.routeEnv ownLuid e).status = true
      · by_cases hsend :
          (((SocketResolvePeerEndpointSrc env.routeEnv ownLuid e).endpoint.Addr.si_family
              == AF_INET && env.sock4) ||
           ((SocketResolvePeerEndpointSrc env.routeEnv ownLuid e).endpoint.Addr.si_family
              == AF_INET6 && env.sock6)) = true
        · left
          constructor <;> simp [SocketSendNblsToPeer, hac, hr, hsend] <;> rfl
        · right
          constructor <;> simp [SocketSendNblsToPeer, hac, hr, hsend] <;> rfl
      · right
        constructor <;> simp [SocketSendNblsToPeer, hac, hr] <;> rfl
    · right
      constructor <;> simp [SocketSendNblsToPeer, hac] <;> rfl

/-- Claim C5 witness: the amended theorem applied to a concrete
single-keepalive chain (which succeeds with AllKeepalive true). -/
theorem send_nbls_success_or_free_witness :
    (ntSuccess (SocketSendNblsToPeer witSendEnv 0 witEp3 [[⟨32⟩]]).status = true ∧
     (SocketSendNblsToPeer witSendEnv 0 witEp3 [[⟨32⟩]]).allKeepalive =
       some ((([[⟨32⟩]] : NBL_CHAIN).flatMap id).all
         (fun nb => nb.DataLength == keepaliveLen))) ∨
    (ntSuccess (SocketSendNblsToPeer witSendEnv 0 witEp3 [[⟨32⟩]]).status = false ∧
     (SocketSendNblsToPeer witSendEnv 0 witEp3 [[⟨32⟩]]).freeSendCount = 1) :=
  send_nbls_success_or_free witSendEnv 0 witEp3 [[⟨32⟩]] (by simp)

/-- Claim support: the scan of a table for a given peer endpoint. -/
def scanOf (env : RouteEnv) (ownLuid : Nat) (e : ENDPOINT)
    (rows : List MIB_IPFORWARD_ROW2) : BestState :=
  scanTable env ownLuid e.Addr.si_family e.Addr.v4Addr e.Addr.v6Addr rows

/-- Claim C4 counterexample: for an endpoint whose family is neither IPv4
nor IPv6, SocketResolvePeerEndpointSrc does not return
STATUS_INVALID_PARAMETER (the initial assignment of that status at line
228 is dead, being overwritten by the table query's status at line
250): with a successful empty table query it returns
STATUS_BAD_NETWORK_PATH. -/
theorem resolver_invalid_family_not_invalid_parameter :
    (SocketResolvePeerEndpointSrc witEnv 0 zeroEndpoint).status = .BadNetworkPath ∧
    (SocketResolvePeerEndpointSrc witEnv 0 zeroEndpoint).status ≠ .InvalidParameter := by
  decide

/-- Claim C4 as amended, outside the (always successful) fast path
SocketResolvePeerEndpointSrc fails with exactly these outcomes: a
failed forwarding-table query surfaces its status unchanged; a failed
scratch-buffer allocation yields STATUS_INSUFFICIENT_RESOURCES; a
failed best-route query surfaces its status unchanged; a zero winning
interface index (no winning entry), or an address family that is
neither IPv4 nor IPv6, yields STATUS_BAD_NETWORK_PATH; in every other
case it succeeds. -/
theorem resolver_failure_outcomes (env : RouteEnv) (ownLuid : Nat) (e : ENDPOINT)
    (hfp : fastPathOk env.gen4 env.gen6 e = false) :
    (∀ s, env.forwardTable e.Addr.si_family = .error s →
       (SocketResolvePeerEndpointSrc env ownLuid e).status = s) ∧
    (∀ rows, env.forwardTable e.Addr.si_family = .ok rows → env.allocOk = false →
       (SocketResolvePeerEndpointSrc env ownLuid e).status = .InsufficientResources) ∧
    (∀ rows s, env.forwardTable e.Addr.si_family = .ok rows → env.allocOk = true →
       rows ≠ [] → (scanOf env ownLuid e rows).BestIndex ≠ 0 →
       env.bestRoute (scanOf env ownLuid e rows).BestIndex e.Addr = .error s →
       (SocketResolvePeerEndpointSrc env ownLuid e).status = s) ∧
    (∀ rows, env.forwardTable e.Addr.si_family = .ok rows → env.allocOk = true →
       (scanOf env ownLuid e rows).BestIndex = 0 →
       (SocketResolvePeerEndpointSrc env ownLuid e).status = .BadNetworkPath) ∧
    (∀ rows a, env.forwardTable e.Addr.si_family = .ok rows → env.allocOk = true →
       e.Addr.si_family ≠ AF_INET → e.Addr.si_family ≠ AF_INET6 →
       env.bestRoute (scanOf env ownLuid e rows).BestIndex e.Addr = .ok a →
       (SocketResolvePeerEndpointSrc env ownLuid e).status = .BadNetworkPath) ∧
    (∀ rows a, env.forwardTable e.Addr.si_family = .ok rows → env.allocOk = true →
       rows ≠ [] → (scanOf env ownLuid e rows).BestIndex ≠ 0 →
       env.bestRoute (scanOf env ownLuid e rows).BestIndex e.Addr = .ok a →
       (e.Addr.si_family = AF_INET ∨ e.Addr.si_family = AF_INET6) →
       (SocketResolvePeerEndpointSrc env ownLuid e).status = .Success) := by
  unfold SocketResolvePeerEndpointSrc
  rw [hfp]
  simp only [Bool.false_eq_true, if_false]
  refine ⟨?_, ?_, ?_, ?_, ?_, ?_⟩
  · intro s htab
    simp [resolveSlow, htab]
  · intro rows htab halloc
    simp [resolveSlow, htab, halloc]
  · intro rows s htab halloc hne hidx hbr
    have hne' : rows.isEmpty = false := by simpa [List.isEmpty_iff] using hne
    simp only [resolveSlow, htab, halloc, Bool.not_true, Bool.false_eq_true, if_false,
      hne', Bool.not_false, Bool.true_and] at *
    simp only [scanOf] at hidx hbr
    simp [bne, hidx, hbr]
  · intro rows htab halloc hidx
    simp only [resolveSlow, htab, halloc, Bool.not_true, Bool.false_eq_true, if_false]
    simp only [scanOf] at hidx
    simp only [hidx, bne_self_eq_false, Bool.and_false, Bool.false_eq_true, if_false]
    by_cases h4 : e.Addr.si_family = AF_INET
    · simp [h4, hidx, AF_INET, AF_INET6]
    · by_cases h6 : e.Addr.si_family = AF_INET6
      · simp [h4, h6, hidx, AF_INET, AF_INET6]
      · simp [h4, h6]
  · intro rows a htab halloc h4 h6 hbr
    simp only [resolveSlow, htab, halloc, Bool.not_true, Bool.false_eq_true, if_false]
    simp only [scanOf] at hbr
    by_cases hbc : (!rows.isEmpty &&
        (scanTable env ownLuid e.Addr.si_family e.Addr.v4Addr e.Addr.v6Addr rows).BestIndex != 0) = true
    · simp [hbc, hbr, h4, h6]
    · simp [hbc, h4, h6]
  · intro rows a htab halloc hne hidx hbr hfam
    have hne' : rows.isEmpty = false := by simpa [List.isEmpty_iff] using hne
    rcases hfam with h | h <;>
      simp only [scanOf, h, AF_INET, AF_INET6] at htab hidx hbr <;>
      simp [resolveSlow, htab, halloc, hne', bne, hidx, hbr, h, AF_INET, AF_INET6]

/-- Claim C4 witness: a concrete failing table query surfaces its status,
and a concrete zero-winner scan yields STATUS_BAD_NETWORK_PATH. -/
theorem resolver_failure_outcomes_witness :
    (SocketResolvePeerEndpointSrc
      { witEnv with forwardTable := fun _ => .error (.OtherFailure 5) }
      0 zeroEndpoint).status = .OtherFailure 5 ∧
    (SocketResolvePeerEndpointSrc witEnv 0 zeroEndpoint).status = .BadNetworkPath :=
  ⟨(resolver_failure_outcomes
      { witEnv with forwardTable := fun _ => .error (.OtherFailure 5) }
      0 zeroEndpoint (by decide)).1 (.OtherFailure 5) rfl,
   (resolver_failure_outcomes witEnv 0 zeroEndpoint (by decide)).2.2.2.1 [] rfl rfl
     (by decide)⟩

/-- Claim support: well-formedness of an IN6_ADDR model: each word fits
in 32 bits. -/
def v6Wf (x : IN6_ADDR) : Prop :=
  x.w0 < 2 ^ 32 ∧ x.w1 < 2 ^ 32 ∧ x.w2 < 2 ^ 32 ∧ x.w3 < 2 ^ 32

lemma v6ToNat_nested (x : IN6_ADDR) :
    v6ToNat x = ((x.w0 * 2 ^ 32 + x.w1) * 2 ^ 32 + x.w2) * 2 ^ 32 + x.w3 := by
  unfold v6ToNat
  ring

lemma testBit_compose (a b n i : Nat) (hb : b < 2 ^ n) :
    (a * 2 ^ n + b).testBit i = if i < n then b.testBit i else a.testBit (i - n) := by
  rcases Nat.lt_or_ge i n with hin | hin
  · rw [if_pos hin, Nat.testBit_to_div_mod, Nat.testBit_to_div_mod]
    have h2 : (2 : Nat) ^ n = 2 ^ (n - i) * 2 ^ i := by
      rw [← pow_add]
      congr 1
      omega
    rw [h2, ← Nat.mul_assoc, Nat.mul_comm (a * 2 ^ (n - i)) (2 ^ i),
      Nat.mul_add_div (Nat.two_pow_pos i)]
    obtain ⟨m, hm⟩ : ∃ m, n - i = m + 1 := ⟨n - i - 1, by omega⟩
    rw [hm, pow_succ, ← Nat.mul_assoc, Nat.mul_comm (a * 2 ^ m) 2, Nat.mul_add_mod]
  · rw [if_neg (by omega), Nat.testBit_to_div_mod, Nat.testBit_to_div_mod]
    have h3 : (a * 2 ^ n + b) / 2 ^ n = a := by
      rw [Nat.mul_comm, Nat.mul_add_div (Nat.two_pow_pos n), Nat.div_eq_of_lt hb,
        Nat.add_zero]
    have h2 : (2 : Nat) ^ i = 2 ^ n * 2 ^ (i - n) := by
      rw [← pow_add]
      congr 1
      omega
    rw [h2, ← Nat.div_div_eq_div_mul, h3]

lemma land_compose (a b c d n : Nat) (hb : b < 2 ^ n) (hd : d < 2 ^ n) :
    (a * 2 ^ n + b) &&& (c * 2 ^ n + d) = (a &&& c) * 2 ^ n + (b &&& d) := by
  apply Nat.eq_of_testBit_eq
  intro i
  rw [Nat.testBit_and, testBit_compose a b n i hb, testBit_compose c d n i hd,
    testBit_compose (a &&& c) (b &&& d) n i (Nat.and_lt_two_pow b hd)]
  by_cases h : i < n <;> simp [h, Nat.testBit_and]

lemma compose_eq_iff (a b c d n : Nat) (hb : b < 2 ^ n) (hd : d < 2 ^ n) :
    a * 2 ^ n + b = c * 2 ^ n + d ↔ (a = c ∧ b = d) := by
  constructor
  · intro h
    have h1 : (a * 2 ^ n + b) % 2 ^ n = (c * 2 ^ n + d) % 2 ^ n := by rw [h]
    rw [Nat.mul_comm a, Nat.mul_comm c, Nat.mul_add_mod, Nat.mul_add_mod,
      Nat.mod_eq_of_lt hb, Nat.mod_eq_of_lt hd] at h1
    have h2 : a * 2 ^ n = c * 2 ^ n := by omega
    exact ⟨Nat.eq_of_mul_eq_mul_right (Nat.two_pow_pos n) h2, h1⟩
  · rintro ⟨rfl, rfl⟩
    rfl

lemma land_v6 (x m : IN6_ADDR) (hx : v6Wf x) (hm : v6Wf m) :
    v6ToNat x &&& v6ToNat m =
      v6ToNat ⟨x.w0 &&& m.w0, x.w1 &&& m.w1, x.w2 &&& m.w2, x.w3 &&& m.w3⟩ := by
  obtain ⟨hx0, hx1, hx2, hx3⟩ := hx
  obtain ⟨hm0, hm1, hm2, hm3⟩ := hm
  rw [v6ToNat_nested x, v6ToNat_nested m,
    v6ToNat_nested ⟨x.w0 &&& m.w0, x.w1 &&& m.w1, x.w2 &&& m.w2, x.w3 &&& m.w3⟩]
  rw [land_compose _ _ _ _ 32 hx3 hm3, land_compose _ _ _ _ 32 hx2 hm2,
    land_compose _ _ _ _ 32 hx1 hm1]

lemma v6_eq_iff (x y : IN6_ADDR) (hx : v6Wf x) (hy : v6Wf y) :
    v6ToNat x = v6ToNat y ↔
      (x.w0 = y.w0 ∧ x.w1 = y.w1 ∧ x.w2 = y.w2 ∧ x.w3 = y.w3) := by
  obtain ⟨hx0, hx1, hx2, hx3⟩ := hx
  obtain ⟨hy0, hy1, hy2, hy3⟩ := hy
  rw [v6ToNat_nested, v6ToNat_nested, compose_eq_iff _ _ _ _ 32 hx3 hy3,
    compose_eq_iff _ _ _ _ 32 hx2 hy2, compose_eq_iff _ _ _ _ 32 hx1 hy1]
  tauto

/-- Claim support: word j of the 128-bit reference mask of length L. -/
def wordMask (L j : Nat) : Nat := cidrMaskRef 32 (min 32 (L - 32 * j))

lemma cidrMaskRef32_lt (K : Nat) (h : K ≤ 32) : cidrMaskRef 32 K < 2 ^ 32 := by
  interval_cases K <;> decide

lemma wordMask_lt (L j : Nat) : wordMask L j < 2 ^ 32 :=
  cidrMaskRef32_lt _ (Nat.min_le_left _ _)

lemma wordMask_wf (L : Nat) :
    v6Wf ⟨wordMask L 0, wordMask L 1, wordMask L 2, wordMask L 3⟩ :=
  ⟨wordMask_lt L 0, wordMask_lt L 1, wordMask_lt L 2, wordMask_lt L 3⟩

lemma mask128_words (L : Nat) (hL : L ≤ 128) :
    cidrMaskRef 128 L =
      v6ToNat ⟨wordMask L 0, wordMask L 1, wordMask L 2, wordMask L 3⟩ := by
  interval_cases L <;> decide

lemma wordMask_full (L j : Nat) (h : 32 * j + 32 ≤ L) : wordMask L j = 2 ^ 32 - 1 := by
  unfold wordMask
  rw [Nat.min_eq_left (by omega)]
  decide

lemma wordMask_zero (L j : Nat) (h : L ≤ 32 * j) : wordMask L j = 0 := by
  unfold wordMask
  have h1 : L - 32 * j = 0 := by omega
  rw [h1]
  decide

lemma wordMask_mid (L j : Nat) (h1 : 32 * j ≤ L) (h2 : L < 32 * j + 32) :
    wordMask L j = cidrMaskRef 32 (L - 32 * j) := by
  unfold wordMask
  rw [Nat.min_eq_right (by omega)]

lemma mask32_eq_ref (L : Nat) (h1 : 0 < L) (h2 : L ≤ 32) :
    MASK32 L = cidrMaskRef 32 L := by
  interval_cases L <;> decide

lemma land_ones (x : Nat) (hx : x < 2 ^ 32) : x &&& (2 ^ 32 - 1) = x := by
  rw [Nat.and_pow_two_sub_one_eq_mod, Nat.mod_eq_of_lt hx]

lemma ref_componentwise (A P6 : IN6_ADDR) (L : Nat) (hA : v6Wf A) (hP : v6Wf P6)
    (hL : L ≤ 128) :
    cidrMatchRef 128 (v6ToNat A) (v6ToNat P6) L = true ↔
      (A.w0 &&& wordMask L 0 = P6.w0 &&& wordMask L 0 ∧
       A.w1 &&& wordMask L 1 = P6.w1 &&& wordMask L 1 ∧
       A.w2 &&& wordMask L 2 = P6.w2 &&& wordMask L 2 ∧
       A.w3 &&& wordMask L 3 = P6.w3 &&& wordMask L 3) := by
  have wfA : v6Wf ⟨A.w0 &&& wordMask L 0, A.w1 &&& wordMask L 1,
      A.w2 &&& wordMask L 2, A.w3 &&& wordMask L 3⟩ :=
    ⟨Nat.and_lt_two_pow _ (wordMask_lt L 0), Nat.and_lt_two_pow _ (wordMask_lt L 1),
     Nat.and_lt_two_pow _ (wordMask_lt L 2), Nat.and_lt_two_pow _ (wordMask_lt L 3)⟩
  have wfP : v6Wf ⟨P6.w0 &&& wordMask L 0, P6.w1 &&& wordMask L 1,
      P6.w2 &&& wordMask L 2, P6.w3 &&& wordMask L 3⟩ :=
    ⟨Nat.and_lt_two_pow _ (wordMask_lt L 0), Nat.and_lt_two_pow _ (wordMask_lt L 1),
     Nat.and_lt_two_pow _ (wordMask_lt L 2), Nat.and_lt_two_pow _ (wordMask_lt L 3)⟩
  unfold cidrMatchRef
  rw [beq_iff_eq, mask128_words L hL, land_v6 A _ hA (wordMask_wf L),
    land_v6 P6 _ hP (wordMask_wf L), v6_eq_iff _ _ wfA wfP]

lemma canonical_componentwise (P6 : IN6_ADDR) (L : Nat) (hP : v6Wf P6) (hL : L ≤ 128)
    (hc : v6ToNat P6 &&& cidrMaskRef 128 L = v6ToNat P6) :
    P6.w0 &&& wordMask L 0 = P6.w0 ∧ P6.w1 &&& wordMask L 1 = P6.w1 ∧
    P6.w2 &&& wordMask L 2 = P6.w2 ∧ P6.w3 &&& wordMask L 3 = P6.w3 := by
  have wfP : v6Wf ⟨P6.w0 &&& wordMask L 0, P6.w1 &&& wordMask L 1,
      P6.w2 &&& wordMask L 2, P6.w3 &&& wordMask L 3⟩ :=
    ⟨Nat.and_lt_two_pow _ (wordMask_lt L 0), Nat.and_lt_two_pow _ (wordMask_lt L 1),
     Nat.and_lt_two_pow _ (wordMask_lt L 2), Nat.and_lt_two_pow _ (wordMask_lt L 3)⟩
  rw [mask128_words L hL, land_v6 P6 _ hP (wordMask_wf L), v6_eq_iff _ _ wfP hP] at hc
  exact hc

lemma wordsEqUpTo_zero (a b : IN6_ADDR) : wordsEqUpTo a b 0 = true := rfl

lemma wordsEqUpTo_succ (a b : IN6_ADDR) (n : Nat) :
    wordsEqUpTo a b (n + 1) = (wordsEqUpTo a b n && (v6Word a n == v6Word b n)) := by
  simp [wordsEqUpTo, List.range_succ]

lemma CidrMaskMatchV6_pos (A : IN6_ADDR) (P : IP_ADDRESS_PREFIX)
    (h : P.PrefixLength ≠ 0) :
    CidrMaskMatchV6 A P =
      (wordsEqUpTo P.Ipv6 A (P.PrefixLength / 32) &&
       ((P.PrefixLength / 32 == 4 || P.PrefixLength % 32 == 0) ||
        (v6Word A (P.PrefixLength / 32) &&& MASK32 (P.PrefixLength % 32)
          == v6Word P.Ipv6 (P.PrefixLength / 32)))) := by
  unfold CidrMaskMatchV6
  simp only [beq_iff_eq, h, if_false]
  cases hw : wordsEqUpTo P.Ipv6 A (P.PrefixLength / 32) <;>
    cases hc : ((P.PrefixLength / 32 : Nat) == 4 || (P.PrefixLength % 32 : Nat) == 0) <;>
      simp [hw, hc]


lemma v6_code_eq_ref (A : IN6_ADDR) (P : IP_ADDRESS_PREFIX) (hA : v6Wf A)
    (hP : v6Wf P.Ipv6) (hL : P.PrefixLength ≤ 128)
    (hc : v6ToNat P.Ipv6 &&& cidrMaskRef 128 P.PrefixLength = v6ToNat P.Ipv6) :
    CidrMaskMatchV6 A P = cidrMatchRef 128 (v6ToNat A) (v6ToNat P.Ipv6) P.PrefixLength := by
  obtain ⟨hA0, hA1, hA2, hA3⟩ := hA
  by_cases hL0 : P.PrefixLength = 0
  · simp [CidrMaskMatchV6, cidrMatchRef, cidrMaskRef, hL0]
  · obtain ⟨k0, k1, k2, k3⟩ := canonical_componentwise P.Ipv6 _ hP hL hc
    rw [Bool.eq_iff_iff, ref_componentwise A P.Ipv6 _ ⟨hA0, hA1, hA2, hA3⟩ hP hL,
      k0, k1, k2, k3, CidrMaskMatchV6_pos A P hL0]
    have hdm := Nat.div_add_mod P.PrefixLength 32
    have hmlt : P.PrefixLength % 32 < 32 := Nat.mod_lt _ (by norm_num)
    have hW : P.PrefixLength / 32 = 0 ∨ P.PrefixLength / 32 = 1 ∨
        P.PrefixLength / 32 = 2 ∨ P.PrefixLength / 32 = 3 ∨
        P.PrefixLength / 32 = 4 := by omega
    rcases hW with h | h | h | h | h
    · have hRL : P.PrefixLength % 32 = P.PrefixLength := by omega
      have hj0 : wordMask P.PrefixLength 0 = MASK32 (P.PrefixLength % 32) := by
        rw [wordMask_mid _ _ (by omega) (by omega)]
        have he : P.PrefixLength - 32 * 0 = P.PrefixLength % 32 := by omega
        rw [he, ← mask32_eq_ref _ (by omega) (by omega)]
      have hj1 : wordMask P.PrefixLength 1 = 0 := wordMask_zero _ _ (by omega)
      have hj2 : wordMask P.PrefixLength 2 = 0 := wordMask_zero _ _ (by omega)
      have hj3 : wordMask P.PrefixLength 3 = 0 := wordMask_zero _ _ (by omega)
      rw [hj1, Nat.and_zero] at k1
      rw [hj2, Nat.and_zero] at k2
      rw [hj3, Nat.and_zero] at k3
      rw [h, hj0, hj1, hj2, hj3]
      simp [wordsEqUpTo_zero, v6Word, Nat.and_zero, hL0, hRL, ← k1, ← k2, ← k3]
    · by_cases hR : P.PrefixLength % 32 = 0
      · have hj0 : wordMask P.PrefixLength 0 = 2 ^ 32 - 1 := wordMask_full _ _ (by omega)
        have hj1 : wordMask P.PrefixLength 1 = 0 := wordMask_zero _ _ (by omega)
        have hj2 : wordMask P.PrefixLength 2 = 0 := wordMask_zero _ _ (by omega)
        have hj3 : wordMask P.PrefixLength 3 = 0 := wordMask_zero _ _ (by omega)
        rw [hj1, Nat.and_zero] at k1
        rw [hj2, Nat.and_zero] at k2
        rw [hj3, Nat.and_zero] at k3
        rw [h, hR, hj0, hj1, hj2, hj3, land_ones A.w0 hA0]
        simp [wordsEqUpTo_succ, wordsEqUpTo_zero, v6Word, Nat.and_zero,
          ← k1, ← k2, ← k3]
        exact eq_comm
      · have hj0 : wordMask P.PrefixLength 0 = 2 ^ 32 - 1 := wordMask_full _ _ (by omega)
        have hj1 : wordMask P.PrefixLength 1 = MASK32 (P.PrefixLength % 32) := by
          rw [wordMask_mid _ _ (by omega) (by omega)]
          have he : P.PrefixLength - 32 * 1 = P.PrefixLength % 32 := by omega
          rw [he, ← mask32_eq_ref _ (by omega) (by omega)]
        have hj2 : wordMask P.PrefixLength 2 = 0 := wordMask_zero _ _ (by omega)
        have hj3 : wordMask P.PrefixLength 3 = 0 := wordMask_zero _ _ (by omega)
        rw [hj2, Nat.and_zero] at k2
        rw [hj3, Nat.and_zero] at k3
        rw [h, hj0, hj1, hj2, hj3, land_ones A.w0 hA0]
        simp [wordsEqUpTo_succ, wordsEqUpTo_zero, v6Word, Nat.and_zero, hR,
          ← k2, ← k3]
        exact fun _ => eq_comm
    · by_cases hR : P.PrefixLength % 32 = 0
      · have hj0 : wordMask P.PrefixLength 0 = 2 ^ 32 - 1 := wordMask_full _ _ (by omega)
        have hj1 : wordMask P.PrefixLength 1 = 2 ^ 32 - 1 := wordMask_full _ _ (by omega)
        have hj2 : wordMask P.PrefixLength 2 = 0 := wordMask_zero _ _ (by omega)
        have hj3 : wordMask P.PrefixLength 3 = 0 := wordMask_zero _ _ (by omega)
        rw [hj2, Nat.and_zero] at k2
        rw [hj3, Nat.and_zero] at k3
        rw [h, hR, hj0, hj1, hj2, hj3, land_ones A.w0 hA0, land_ones A.w1 hA1]
        simp [wordsEqUpTo_succ, wordsEqUpTo_zero, v6Word, Nat.and_zero,
          ← k2, ← k3]
        constructor
        · rintro ⟨x, y⟩
          exact ⟨x.symm, y.symm⟩
        · rintro ⟨x, y⟩
          exact ⟨x.symm, y.symm⟩
      · have hj0 : wordMask P.PrefixLength 0 = 2 ^ 32 - 1 := wordMask_full _ _ (by omega)
        have hj1 : wordMask P.PrefixLength 1 = 2 ^ 32 - 1 := wordMask_full _ _ (by omega)
        have hj2 : wordMask P.PrefixLength 2 = MASK32 (P.PrefixLength % 32) := by
          rw [wordMask_mid _ _ (by omega) (by omega)]
          have he : P.PrefixLength - 32 * 2 = P.PrefixLength % 32 := by omega
          rw [he, ← mask32_eq_ref _ (by omega) (by omega)]
        have hj3 : wordMask P.PrefixLength 3 = 0 := wordMask_zero _ _ (by omega)
        rw [hj3, Nat.and_zero] at k3
        rw [h, hj0, hj1, hj2, hj3, land_ones A.w0 hA0, land_ones A.w1 hA1]
        simp [wordsEqUpTo_succ, wordsEqUpTo_zero, v6Word, Nat.and_zero, hR, ← k3]
        constructor
        · rintro ⟨⟨x, y⟩, z⟩
          exact ⟨x.symm, y.symm, z⟩
        · rintro ⟨x, y, z⟩
          exact ⟨⟨x.symm, y.symm⟩, z⟩
    · by_cases hR : P.PrefixLength % 32 = 0
      · have hj0 : wordMask P.PrefixLength 0 = 2 ^ 32 - 1 := wordMask_full _ _ (by omega)
        have hj1 : wordMask P.PrefixLength 1 = 2 ^ 32 - 1 := wordMask_full _ _ (by omega)
        have hj2 : wordMask P.PrefixLength 2 = 2 ^ 32 - 1 := wordMask_full _ _ (by omega)
        have hj3 : wordMask P.PrefixLength 3 = 0 := wordMask_zero _ _ (by omega)
        rw [hj3, Nat.and_zero] at k3
        rw [h, hR, hj0, hj1, hj2, hj3, land_ones A.w0 hA0, land_ones A.w1 hA1,
          land_ones A.w2 hA2]
        simp [wordsEqUpTo_succ, wordsEqUpTo_zero, v6Word, Nat.and_zero, ← k3]
        constructor
        · rintro ⟨⟨x, y⟩, z⟩
          exact ⟨x.symm, y.symm, z.symm⟩
        · rintro ⟨x, y, z⟩
          exact ⟨⟨x.symm, y.symm⟩, z.symm⟩
      · have hj0 : wordMask P.PrefixLength 0 = 2 ^ 32 - 1 := wordMask_full _ _ (by omega)
        have hj1 : wordMask P.PrefixLength 1 = 2 ^ 32 - 1 := wordMask_full _ _ (by omega)
        have hj2 : wordMask P.PrefixLength 2 = 2 ^ 32 - 1 := wordMask_full _ _ (by omega)
        have hj3 : wordMask P.PrefixLength 3 = MASK32 (P.PrefixLength % 32) := by
          rw [wordMask_mid _ _ (by omega) (by omega)]
          have he : P.PrefixLength - 32 * 3 = P.PrefixLength % 32 := by omega
          rw [he, ← mask32_eq_ref _ (by omega) (by omega)]
        rw [h, hj0, hj1, hj2, hj3, land_ones A.w0 hA0, land_ones A.w1 hA1,
          land_ones A.w2 hA2]
        simp [wordsEqUpTo_succ, wordsEqUpTo_zero, v6Word, Nat.and_zero, hR]
        constructor
        · rintro ⟨⟨⟨x, y⟩, z⟩, u⟩
          exact ⟨x.symm, y.symm, z.symm, u⟩
        · rintro ⟨x, y, z, u⟩
          exact ⟨⟨⟨x.symm, y.symm⟩, z.symm⟩, u⟩
    · have hj0 : wordMask P.PrefixLength 0 = 2 ^ 32 - 1 := wordMask_full _ _ (by omega)
      have hj1 : wordMask P.PrefixLength 1 = 2 ^ 32 - 1 := wordMask_full _ _ (by omega)
      have hj2 : wordMask P.PrefixLength 2 = 2 ^ 32 - 1 := wordMask_full _ _ (by omega)
      have hj3 : wordMask P.PrefixLength 3 = 2 ^ 32 - 1 := wordMask_full _ _ (by omega)
      rw [h, hj0, hj1, hj2, hj3, land_ones A.w0 hA0, land_ones A.w1 hA1,
        land_ones A.w2 hA2, land_ones A.w3 hA3]
      simp [wordsEqUpTo_succ, wordsEqUpTo_zero, v6Word]
      constructor
      · rintro ⟨⟨⟨x, y⟩, z⟩, u⟩
        exact ⟨x.symm, y.symm, z.symm, u.symm⟩
      · rintro ⟨x, y, z, u⟩
        exact ⟨⟨⟨x.symm, y.symm⟩, z.symm⟩, u.symm⟩

lemma v4_code_eq_ref (A : Nat) (P : IP_ADDRESS_PREFIX) (hL : P.PrefixLength ≤ 32)
    (hc : P.Ipv4 &&& cidrMaskRef 32 P.PrefixLength = P.Ipv4) :
    CidrMaskMatchV4 A P = cidrMatchRef 32 A P.Ipv4 P.PrefixLength := by
  by_cases hL0 : P.PrefixLength = 0
  · simp [CidrMaskMatchV4, cidrMatchRef, cidrMaskRef, hL0]
  · unfold CidrMaskMatchV4 cidrMatchRef
    rw [mask32_eq_ref _ (by omega) hL, hc]
    simp [hL0]

/-- Claim C2 counterexample: the resolver's CIDR predicate is not the
reference predicate on every prefix: at address 0 and the
(non-canonical) prefix 1/31 the IPv4 code match is false while the
reference match is true. -/
theorem cidr_match_not_reference :
    CidrMaskMatchV4 0 ⟨1, zeroIN6, 31⟩ = false ∧
    cidrMatchRef 32 0 1 31 = true := by
  decide

/-- Claim C2 as amended: for prefixes whose stored address is canonical
(the bits beyond the prefix length are zero, i.e. masking the stored
prefix address leaves it unchanged), the resolver's CIDR predicates
equal the reference definition ((A and mask(L)) == (P.addr and
mask(L)), mask(0) = 0, mask(L>0) the complement of ((1 lshift (W-L))-1)
over the family's word width W), for IPv4 over W = 32 and, for
well-formed 32-bit words and L <= 128, for IPv6 over W = 128; and a
zero-length prefix matches every address under both the code and the
reference predicates, canonical or not. -/
theorem cidr_match_reference_canonical :
    (∀ (A : Nat) (P : IP_ADDRESS_PREFIX), P.PrefixLength ≤ 32 →
       P.Ipv4 &&& cidrMaskRef 32 P.PrefixLength = P.Ipv4 →
       CidrMaskMatchV4 A P = cidrMatchRef 32 A P.Ipv4 P.PrefixLength) ∧
    (∀ (A : IN6_ADDR) (P : IP_ADDRESS_PREFIX), v6Wf A → v6Wf P.Ipv6 →
       P.PrefixLength ≤ 128 →
       v6ToNat P.Ipv6 &&& cidrMaskRef 128 P.PrefixLength = v6ToNat P.Ipv6 →
       CidrMaskMatchV6 A P = cidrMatchRef 128 (v6ToNat A) (v6ToNat P.Ipv6) P.PrefixLength) ∧
    (∀ (A4 : Nat) (A6 : IN6_ADDR) (P : IP_ADDRESS_PREFIX), P.PrefixLength = 0 →
       CidrMaskMatchV4 A4 P = true ∧ CidrMaskMatchV6 A6 P = true ∧
       cidrMatchRef 32 A4 P.Ipv4 P.PrefixLength = true ∧
       cidrMatchRef 128 (v6ToNat A6) (v6ToNat P.Ipv6) P.PrefixLength = true) := by
  refine ⟨v4_code_eq_ref, v6_code_eq_ref, ?_⟩
  intro A4 A6 P hL0
  refine ⟨?_, ?_, ?_, ?_⟩ <;>
    simp [CidrMaskMatchV4, CidrMaskMatchV6, cidrMatchRef, cidrMaskRef, hL0]

/-- Claim C2 witness: the amended equivalence applied at concrete
canonical prefixes, once per conjunct. -/
theorem cidr_match_reference_canonical_witness :
    CidrMaskMatchV4 0xC6336401 ⟨0xC6336400, zeroIN6, 24⟩ =
      cidrMatchRef 32 0xC6336401 0xC6336400 24 ∧
    CidrMaskMatchV6 ⟨1, 0x80000000, 3, 4⟩ ⟨0, ⟨1, 0x80000000, 0, 0⟩, 33⟩ =
      cidrMatchRef 128 (v6ToNat ⟨1, 0x80000000, 3, 4⟩)
        (v6ToNat ⟨1, 0x80000000, 0, 0⟩) 33 ∧
    CidrMaskMatchV4 5 ⟨9, zeroIN6, 0⟩ = true :=
  ⟨cidr_match_reference_canonical.1 0xC6336401 ⟨0xC6336400, zeroIN6, 24⟩
     (by norm_num) (by decide),
   cidr_match_reference_canonical.2.1 ⟨1, 0x80000000, 3, 4⟩
     ⟨0, ⟨1, 0x80000000, 0, 0⟩, 33⟩ (by norm_num [v6Wf]) (by norm_num [v6Wf])
     (by norm_num) (by decide),
   (cidr_match_reference_canonical.2.2 5 zeroIN6 ⟨9, zeroIN6, 0⟩ rfl).1⟩

lemma foldr_max_concat (l : List Nat) (y : Nat) :
    (l ++ [y]).foldr max 0 = max (l.foldr max 0) y := by
  induction l with
  | nil => simp [Nat.max_comm]
  | cons x xs ih => simp [ih, Nat.max_assoc]

lemma foldr_min_concat (l : List Nat) (y M : Nat) :
    (l ++ [y]).foldr min M = min (l.foldr min M) y := by
  induction l with
  | nil => simp [Nat.min_comm]
  | cons x xs ih => simp [ih, Nat.min_assoc]

lemma le_foldr_max (l : List Nat) (x : Nat) (hx : x ∈ l) : x ≤ l.foldr max 0 := by
  induction l with
  | nil => cases hx
  | cons a as ih =>
    rcases List.mem_cons.mp hx with rfl | h
    · exact Nat.le_max_left _ _
    · exact le_trans (ih h) (Nat.le_max_right _ _)

lemma foldr_min_le (l : List Nat) (M x : Nat) (hx : x ∈ l) : l.foldr min M ≤ x := by
  induction l with
  | nil => cases hx
  | cons a as ih =>
    rcases List.mem_cons.mp hx with rfl | h
    · exact Nat.min_le_left _ _
    · exact le_trans (Nat.min_le_right _ _) (ih h)

lemma foldr_max_mem (l : List Nat) (h : l ≠ []) : l.foldr max 0 ∈ l := by
  induction l with
  | nil => exact absurd rfl h
  | cons a as ih =>
    cases as with
    | nil => simp
    | cons b bs =>
      rcases max_choice a ((b :: bs).foldr max 0) with hm | hm <;>
        simp only [List.foldr_cons] at *
      · rw [hm]
        exact List.mem_cons_self _ _
      · rw [hm]
        exact List.mem_cons_of_mem _ (ih (by simp))

lemma foldr_min_mem (l : List Nat) (M : Nat) (h : l ≠ []) (hle : ∀ x ∈ l, x ≤ M) :
    l.foldr min M ∈ l := by
  induction l with
  | nil => exact absurd rfl h
  | cons a as ih =>
    cases as with
    | nil =>
      simp only [List.foldr_cons, List.foldr_nil]
      rw [Nat.min_eq_left (hle a (List.mem_cons_self _ _))]
      simp
    | cons b bs =>
      rcases min_choice a ((b :: bs).foldr min M) with hm | hm <;>
        simp only [List.foldr_cons] at *
      · rw [hm]
        exact List.mem_cons_self _ _
      · rw [hm]
        exact List.mem_cons_of_mem _
          (ih (by simp) (fun x hx => hle x (List.mem_cons_of_mem _ hx)))

lemma scanStep_not_elig (env : RouteEnv) (ownLuid fam a4 : Nat) (a6 : IN6_ADDR)
    (s : BestState) (row : MIB_IPFORWARD_ROW2)
    (h : eligibleRow env ownLuid fam a4 a6 row = false) :
    scanStep env ownLuid fam a4 a6 s row = s := by
  unfold scanStep
  by_cases h1 : (row.InterfaceLuid == ownLuid) = true
  · simp [h1]
  · by_cases h2 : row.DestinationPrefix.PrefixLength < s.BestCidr
    · simp [h1, h2]
    · by_cases h3 : (fam == AF_INET && !CidrMaskMatchV4 a4 row.DestinationPrefix) = true
      · simp [h1, h2, h3]
      · by_cases h4 : (fam == AF_INET6 && !CidrMaskMatchV6 a6 row.DestinationPrefix) = true
        · simp [h1, h2, h3, h4]
        · cases hq : env.ifQuery row.InterfaceLuid with
          | none => simp [h1, h2, h3, h4, hq]
          | some up =>
            cases up with
            | false => simp [h1, h2, h3, h4, hq]
            | true =>
              cases hip : env.ipIfQuery fam row.InterfaceLuid with
              | none => simp [h1, h2, h3, h4, hq, hip]
              | some m =>
                exfalso
                simp [eligibleRow, h1, h3, h4, hq, hip] at h
                exact h1 (beq_iff_eq.mpr h)

lemma scanStep_elig (env : RouteEnv) (ownLuid fam a4 : Nat) (a6 : IN6_ADDR)
    (s : BestState) (row : MIB_IPFORWARD_ROW2)
    (h : eligibleRow env ownLuid fam a4 a6 row = true) :
    scanStep env ownLuid fam a4 a6 s row = greedyStep (rowTotalMetric env fam) s row := by
  unfold eligibleRow at h
  simp only [Bool.and_eq_true, Bool.not_eq_true', bne_iff_ne, ne_eq, beq_iff_eq,
    Option.isSome_iff_exists] at h
  obtain ⟨⟨⟨⟨h1, h3⟩, h4⟩, h5⟩, m, hm⟩ := h
  unfold scanStep greedyStep lenOf rowTotalMetric
  simp [h1, h3, h4, h5, hm]

lemma rowTotalMetric_le (env : RouteEnv) (fam : Nat) (r : MIB_IPFORWARD_ROW2) :
    rowTotalMetric env fam r ≤ 2 ^ 32 - 1 := by
  unfold rowTotalMetric
  have := Nat.mod_lt (r.Metric + (env.ipIfQuery fam r.InterfaceLuid).getD 0)
    (show 0 < 2 ^ 32 by norm_num)
  omega

lemma scanTable_eq_filtered (env : RouteEnv) (ownLuid fam a4 : Nat) (a6 : IN6_ADDR)
    (rows : List MIB_IPFORWARD_ROW2) :
    scanTable env ownLuid fam a4 a6 rows =
      (rows.filter (eligibleRow env ownLuid fam a4 a6)).foldl
        (greedyStep (rowTotalMetric env fam)) initBest := by
  unfold scanTable
  generalize initBest = s
  induction rows generalizing s with
  | nil => rfl
  | cons r rs ih =>
    cases he : eligibleRow env ownLuid fam a4 a6 r with
    | false =>
      rw [List.filter_cons_of_neg (by simp [he]), List.foldl_cons,
        scanStep_not_elig env ownLuid fam a4 a6 s r he, ih]
    | true =>
      rw [List.filter_cons_of_pos (by simp [he]), List.foldl_cons, List.foldl_cons,
        scanStep_elig env ownLuid fam a4 a6 s r he, ih]

lemma pickWinner_spec (f : MIB_IPFORWARD_ROW2 → Nat) (el : List MIB_IPFORWARD_ROW2)
    (w : MIB_IPFORWARD_ROW2) (hw : pickWinner f el = some w) :
    w ∈ el ∧ lenOf w = maxCidrL el ∧ f w = minMetricL f el := by
  have h2 := List.mem_of_getLast?_eq_some hw
  obtain ⟨h1, hm⟩ := List.mem_filter.mp h2
  obtain ⟨h0, hl⟩ := List.mem_filter.mp h1
  exact ⟨h0, by simpa using hl, by simpa using hm⟩

lemma pickWinner_eq_none (f : MIB_IPFORWARD_ROW2 → Nat) (el : List MIB_IPFORWARD_ROW2)
    (hf : ∀ x ∈ el, f x ≤ 2 ^ 32 - 1) :
    pickWinner f el = none ↔ el = [] := by
  constructor
  · intro h
    by_contra hne
    have hmap : el.map lenOf ≠ [] := by simpa using hne
    obtain ⟨x, hxel, hxlen⟩ := List.mem_map.mp (foldr_max_mem _ hmap)
    have hx1 : x ∈ cands1 el := List.mem_filter.mpr ⟨hxel, by simp [hxlen, maxCidrL]⟩
    have hbound : ∀ y ∈ (cands1 el).map f, y ≤ 2 ^ 32 - 1 := by
      intro y hy
      obtain ⟨z, hz, rfl⟩ := List.mem_map.mp hy
      exact hf z (List.mem_filter.mp hz).1
    have hc1ne : (cands1 el).map f ≠ [] := by
      simpa using List.ne_nil_of_mem hx1
    obtain ⟨y, hy1, hylen⟩ := List.mem_map.mp (foldr_min_mem _ _ hc1ne hbound)
    have hy2 : y ∈ cands2 f el := List.mem_filter.mpr ⟨hy1, by simp [hylen, minMetricL]⟩
    exact List.ne_nil_of_mem hy2 (List.getLast?_eq_none_iff.mp h)
  · rintro rfl
    rfl

theorem greedy_eq_pick (f : MIB_IPFORWARD_ROW2 → Nat) (el : List MIB_IPFORWARD_ROW2)
    (hf : ∀ r ∈ el, f r ≤ 2 ^ 32 - 1) :
    el.foldl (greedyStep f) initBest =
      (match pickWinner f el with
       | none => initBest
       | some w => ⟨w.InterfaceIndex, lenOf w, f w, w.InterfaceLuid⟩) := by
  induction el using List.reverseRecOn with
  | nil => rfl
  | append_singleton rs r ih =>
    have hfr : f r ≤ 2 ^ 32 - 1 := hf r (by simp)
    have hfr' : f r ≤ 4294967295 := hfr
    have hfrs : ∀ x ∈ rs, f x ≤ 2 ^ 32 - 1 := fun x hx => hf x (by simp [hx])
    rw [List.foldl_append, List.foldl_cons, List.foldl_nil, ih hfrs]
    have hmcc : maxCidrL (rs ++ [r]) = max (maxCidrL rs) (lenOf r) := by
      unfold maxCidrL
      rw [List.map_append]
      simp only [List.map_cons, List.map_nil]
      exact foldr_max_concat _ _
    cases hw : pickWinner f rs with
    | none =>
      have hrs : rs = [] := (pickWinner_eq_none f rs hfrs).mp hw
      subst hrs
      have hpw : pickWinner f [r] = some r := by
        simp [pickWinner, cands2, cands1, minMetricL, maxCidrL, Nat.min_eq_left hfr, hfr']
      rw [List.nil_append, hpw]
      simp [greedyStep, initBest, Nat.not_lt.mpr hfr']
    | some w =>
      obtain ⟨hwel, hwlen, hwmet⟩ := pickWinner_spec f rs w hw
      have hlenle : ∀ x ∈ rs, lenOf x ≤ maxCidrL rs := fun x hx =>
        le_foldr_max _ _ (List.mem_map_of_mem _ hx)
      have hmetle : ∀ x ∈ cands1 rs, minMetricL f rs ≤ f x := fun x hx =>
        foldr_min_le _ _ _ (List.mem_map_of_mem _ hx)
      rcases Nat.lt_trichotomy (lenOf r) (maxCidrL rs) with hlt | heq | hgt
      · have hmc' : maxCidrL (rs ++ [r]) = maxCidrL rs := by
          rw [hmcc]
          exact Nat.max_eq_left (Nat.le_of_lt hlt)
        have hc1' : cands1 (rs ++ [r]) = cands1 rs := by
          simp [cands1, hmc', List.filter_append, Nat.ne_of_lt hlt]
        have hmm' : minMetricL f (rs ++ [r]) = minMetricL f rs := by
          simp [minMetricL, hc1']
        have hc2' : cands2 f (rs ++ [r]) = cands2 f rs := by
          simp [cands2, hc1', hmm']
        have hpw : pickWinner f (rs ++ [r]) = some w := by
          simpa [pickWinner, hc2'] using hw
        rw [hpw]
        simp [greedyStep, hwlen, hlt]
      · have hmc' : maxCidrL (rs ++ [r]) = maxCidrL rs := by
          rw [hmcc]
          exact Nat.max_eq_left (Nat.le_of_eq heq)
        have hc1' : cands1 (rs ++ [r]) = cands1 rs ++ [r] := by
          simp [cands1, hmc', List.filter_append, heq]
        have hmmc : minMetricL f (rs ++ [r]) = min (minMetricL f rs) (f r) := by
          unfold minMetricL
          rw [hc1', List.map_append]
          simp only [List.map_cons, List.map_nil]
          exact foldr_min_concat _ _ _
        rcases Nat.lt_trichotomy (f r) (minMetricL f rs) with hm | hm | hm
        · have hmm' : minMetricL f (rs ++ [r]) = f r := by
            rw [hmmc]
            exact Nat.min_eq_right (Nat.le_of_lt hm)
          have hfilrs : (cands1 rs).filter (fun x => f x == f r) = [] := by
            refine List.filter_eq_nil_iff.mpr ?_
            intro x hx
            have := hmetle x hx
            simp only [beq_iff_eq]
            omega
          have hc2' : cands2 f (rs ++ [r]) = [r] := by
            simp [cands2, hc1', hmm', List.filter_append, hfilrs]
          have hpw : pickWinner f (rs ++ [r]) = some r := by
            simp [pickWinner, hc2']
          rw [hpw]
          simp [greedyStep, hwlen, hwmet, heq, Nat.not_lt.mpr (Nat.le_of_lt hm)]
        · have hmm' : minMetricL f (rs ++ [r]) = minMetricL f rs := by
            rw [hmmc, hm]
            exact Nat.min_self _
          have hc2' : cands2 f (rs ++ [r]) = cands2 f rs ++ [r] := by
            simp [cands2, hc1', hmm', List.filter_append, hm]
          have hpw : pickWinner f (rs ++ [r]) = some r := by
            simp [pickWinner, hc2', List.getLast?_concat]
          rw [hpw]
          simp [greedyStep, hwlen, hwmet, heq, hm]
        · have hmm' : minMetricL f (rs ++ [r]) = minMetricL f rs := by
            rw [hmmc]
            exact Nat.min_eq_left (Nat.le_of_lt hm)
          have hc2' : cands2 f (rs ++ [r]) = cands2 f rs := by
            simp [cands2, hc1', hmm', List.filter_append, Nat.ne_of_gt hm]
          have hpw : pickWinner f (rs ++ [r]) = some w := by
            simpa [pickWinner, hc2'] using hw
          rw [hpw]
          simp [greedyStep, hwlen, hwmet, heq, hm]
      · have hmc' : maxCidrL (rs ++ [r]) = lenOf r := by
          rw [hmcc]
          exact Nat.max_eq_right (Nat.le_of_lt hgt)
        have hfilrs : rs.filter (fun x => lenOf x == lenOf r) = [] := by
          refine List.filter_eq_nil_iff.mpr ?_
          intro x hx
          have := hlenle x hx
          simp only [beq_iff_eq]
          omega
        have hc1' : cands1 (rs ++ [r]) = [r] := by
          simp [cands1, hmc', List.filter_append, hfilrs]
        have hmm' : minMetricL f (rs ++ [r]) = f r := by
          simp [minMetricL, hc1', Nat.min_eq_left hfr']
        have hc2' : cands2 f (rs ++ [r]) = [r] := by
          simp [cands2, hc1', hmm']
        have hpw : pickWinner f (rs ++ [r]) = some r := by
          simp [pickWinner, hc2']
        rw [hpw]
        simp [greedyStep, hwlen, Nat.not_lt.mpr (Nat.le_of_lt hgt), Nat.ne_of_gt hgt]

/-- Claim C1: for every forwarding table, the scan of
SocketResolvePeerEndpointSrc selects as winner the eligible entry (not
the device's own tunnel interface, CIDR-matching the remote address,
interface up and queryable) of longest prefix, lowest total metric
(route metric plus interface metric) among the prefix ties, later table
position among remaining ties; the winner's interface index is then
passed to GetBestRoute2 to obtain the source address. -/
theorem resolver_selects_spec_winner (env : RouteEnv) (ownLuid : Nat) (e : ENDPOINT)
    (rows : List MIB_IPFORWARD_ROW2) (w : MIB_IPFORWARD_ROW2)
    (hfp : fastPathOk env.gen4 env.gen6 e = false)
    (htab : env.forwardTable e.Addr.si_family = .ok rows)
    (halloc : env.allocOk = true)
    (hw : specWinner env ownLuid e.Addr.si_family e.Addr.v4Addr e.Addr.v6Addr rows = some w)
    (hidx : w.InterfaceIndex ≠ 0) :
    scanOf env ownLuid e rows =
      ⟨w.InterfaceIndex, w.DestinationPrefix.PrefixLength,
       rowTotalMetric env e.Addr.si_family w, w.InterfaceLuid⟩ ∧
    (SocketResolvePeerEndpointSrc env ownLuid e).bestRouteArg = some w.InterfaceIndex := by
  have hbound : ∀ x ∈ rows.filter
      (eligibleRow env ownLuid e.Addr.si_family e.Addr.v4Addr e.Addr.v6Addr),
      rowTotalMetric env e.Addr.si_family x ≤ 2 ^ 32 - 1 :=
    fun x _ => rowTotalMetric_le env e.Addr.si_family x
  unfold specWinner at hw
  have hscan : scanOf env ownLuid e rows =
      ⟨w.InterfaceIndex, w.DestinationPrefix.PrefixLength,
       rowTotalMetric env e.Addr.si_family w, w.InterfaceLuid⟩ := by
    unfold scanOf
    rw [scanTable_eq_filtered, greedy_eq_pick _ _ hbound, hw]
    rfl
  refine ⟨hscan, ?_⟩
  have hmem : w ∈ rows :=
    (List.mem_filter.mp (pickWinner_spec _ _ _ hw).1).1
  have hne' : rows.isEmpty = false := by
    simpa [List.isEmpty_iff] using List.ne_nil_of_mem hmem
  unfold scanOf at hscan
  unfold SocketResolvePeerEndpointSrc
  rw [hfp]
  simp only [Bool.false_eq_true, if_false]
  unfold resolveSlow
  simp only [htab, halloc, Bool.not_true, Bool.false_eq_true, if_false, hscan, hne',
    Bool.not_false, Bool.true_and]
  simp only [bne, hidx, beq_iff_eq, if_true, Bool.not_false]
  rcases hbr : env.bestRoute w.InterfaceIndex e.Addr with s | a <;>
    simp [hbr, hidx] <;> split_ifs <;> simp

/-- Claim support: the default route of the spec's slow-path scenario
(0.0.0.0/0 via interface 2, route metric 20). -/
def witRow1 : MIB_IPFORWARD_ROW2 := ⟨102, 2, ⟨0, zeroIN6, 0⟩, 20⟩

/-- Claim support: the 198.51.100.0/24 route via interface 4 (route
metric 5) of the spec's slow-path scenario. -/
def witRow2 : MIB_IPFORWARD_ROW2 := ⟨104, 4, ⟨3325256704, zeroIN6, 24⟩, 5⟩

/-- Claim support: the routing environment of the spec's slow-path
scenario: both interfaces up, interface metrics 10 (luid 104) and 100
(luid 102). -/
def witScanEnv : RouteEnv where
  gen4 := 5
  gen6 := 1
  forwardTable := fun _ => .ok [witRow1, witRow2]
  allocOk := true
  ifQuery := fun _ => some true
  ipIfQuery := fun _ l => if l == 104 then some 10 else some 100
  bestRoute := fun _ _ => .ok { zeroSockaddrInet with si_family := 2, v4Addr := 3325256708 }

/-- Claim support: the peer endpoint 198.51.100.1:51820 with a stale
cached generation, of the spec's slow-path scenario. -/
def witEpScan : ENDPOINT :=
  { zeroEndpoint with
    Addr := { zeroSockaddrInet with
              si_family := 2, v4Addr := 3325256705, v4Port := 51820 },
    RoutingGeneration := 3 }

/-- Claim C1 witness: the spec's slow-path scenario: the /24 route via
interface 4 wins over the default route and its index 4 is passed to
GetBestRoute2. -/
theorem resolver_selects_spec_winner_witness :
    scanOf witScanEnv 999 witEpScan [witRow1, witRow2] =
      ⟨witRow2.InterfaceIndex, witRow2.DestinationPrefix.PrefixLength,
       rowTotalMetric witScanEnv witEpScan.Addr.si_family witRow2,
       witRow2.InterfaceLuid⟩ ∧
    (SocketResolvePeerEndpointSrc witScanEnv 999 witEpScan).bestRouteArg =
      some witRow2.InterfaceIndex :=
  resolver_selects_spec_winner witScanEnv 999 witEpScan [witRow1, witRow2] witRow2
    (by decide) rfl rfl (by decide) (by decide)
